import Mathlib

/-!
Shallow embedding of the aw-core `query2` module (a small query DSL:
lexical classification, recursive-descent parsing and tree-walking
interpretation of `name = expression;` scripts), together with theorems
settling the specification claims.

Python strings are modelled as `List Char`; Python exceptions as an
explicit error type threaded through `Except`.  Definitions mirror the
source functions of `aw_analysis/query2.py` one-to-one, keeping names.
-/

namespace Q2

/-- Error kinds: `queryException` is the module's own `QueryException`;
the other constructors model built-in Python exceptions that can escape
(`IndexError` from indexing an empty string, `TypeError` from a call with
a wrong arity, and a catch-all for any other host exception class). -/
inductive PyErr where
  | queryException (msg : String)
  | indexError (msg : String)
  | typeError (msg : String)
  | otherError (cls : String) (msg : String)
deriving DecidableEq, Repr

/-- Characters stripped by Python's `str.strip()`. -/
def isPySpace (c : Char) : Bool :=
  c = ' ' || c = '\t' || c = '\n' || c = '\r' || c = '\x0b' || c = '\x0c'

/-- Python `str.strip()`: drop leading and trailing whitespace. -/
def pyStrip (l : List Char) : List Char :=
  ((l.dropWhile isPySpace).reverse.dropWhile isPySpace).reverse

/-- Python `str.split(sep)` for a one-character separator. -/
def pySplit (sep : Char) : List Char → List (List Char)
  | [] => [[]]
  | c :: rest =>
    if c = sep then [] :: pySplit sep rest
    else
      match pySplit sep rest with
      | [] => [[c]]
      | g :: gs => (c :: g) :: gs

/-- Python `str.find(sub)` for a one-character needle: first index or -1. -/
def pyFindAux (c : Char) : List Char → Nat → Int
  | [], _ => -1
  | x :: xs, i => if x = c then (i : Int) else pyFindAux c xs (i + 1)

def pyFind (c : Char) (s : List Char) : Int := pyFindAux c s 0

/-- Resolve a (possibly negative) Python slice index against a length. -/
def pyIndex (len : Nat) (i : Int) : Nat :=
  if 0 ≤ i then i.toNat else (len + i).toNat

/-- Python `s[:i]` (negative indices clamp like Python's). -/
def pySliceTo (s : List Char) (i : Int) : List Char := s.take (pyIndex s.length i)

/-- Python `s[i:]`. -/
def pySliceFrom (s : List Char) (i : Int) : List Char := s.drop (pyIndex s.length i)

/-- Python `s[a:b]`. -/
def pySlice (s : List Char) (a b : Int) : List Char :=
  (s.take (pyIndex s.length b)).drop (pyIndex s.length a)

/-- Python `int()` on the digit-only lexeme produced by `Integer.check`
(the classifier only ever yields decimal-digit runs). -/
def pyInt (s : List Char) : Int :=
  Int.ofNat (s.foldl (fun acc c => acc * 10 + (c.toNat - '0'.toNat)) 0)

/-- Runtime value kinds flowing through evaluation (`None`, `int`, `str`,
`list`, `dict`).  Host values returned by registry callables are also
drawn from this type. -/
inductive Value where
  | none
  | int (n : Int)
  | str (s : String)
  | list (l : List Value)
  | dict (d : List (String × Value))

/-- AST nodes, one constructor per `Token` subclass of the source. -/
inductive Token where
  | integer (value : Int)
  | string (value : String)
  | variable (name : String) (value : Value)
  | function (name : String) (args : List Token)
  | dict (value : List (String × Token))
  | list (value : List Token)

/-- The classifier classes, in the priority order used by `_parse_token`. -/
inductive TokenType where
  | string | integer | function | dict | list | variable
deriving DecidableEq, Repr

/-- Namespaces are insertion-ordered string-keyed mappings (Python `dict`). -/
abbrev Namespace := List (String × Value)

/-- Python `d[k] = v` on an insertion-ordered dict: replace in place if the
key exists, else append. -/
def assocSet {α : Type} : List (String × α) → String → α → List (String × α)
  | [], k, v => [(k, v)]
  | (k', v') :: rest, k, v =>
    if k' = k then (k, v) :: rest else (k', v') :: assocSet rest k v

/-- Python `d[k]` / `k in d` lookup. -/
def assocGet {α : Type} : List (String × α) → String → Option α
  | [], _ => Option.none
  | (k', v') :: rest, k => if k' = k then Option.some v' else assocGet rest k

/-- Opaque data-store handle: passed through unexamined by the core. -/
structure Datastore where
  id : Nat

/-- Python `datetime` reduced to what the core uses of it: `isoformat()`. -/
structure PyDatetime where
  iso : String

def PyDatetime.isoformat (d : PyDatetime) : String := d.iso

/-- Registry callables receive the datastore, the (mutable, so also
returned) namespace and the evaluated arguments, and either return a
value or raise. -/
abbrev QFunc := Datastore → Namespace → List Value → Except PyErr (Value × Namespace)

/-- Modelled from the spec: the function registry `query2_functions` is
imported from `aw_analysis.query2_functions`, which is not part of the
source under verification; per the spec it is an external, immutable
name-keyed mapping from function names to callables, here abstracted as a
parameter.  An arity mismatch in the host surfaces as a `TypeError`. -/
abbrev Registry := String → Option QFunc

/-- A registry with no functions, for concrete runs that call none. -/
def emptyRegistry : Registry := fun _ => Option.none

/-- Source `Integer.check`: take the maximal leading run of digits. -/
def Integer.check (s : List Char) : List Char × List Char :=
  let token := s.takeWhile Char.isDigit
  (token, s.drop token.length)

/-- Loop of `Variable.check`: letters/underscore anywhere, digits only
past position 0. -/
def Variable.checkAux : List Char → Nat → List Char
  | [], _ => []
  | c :: cs, i =>
    if c.isAlpha || c = '_' then c :: Variable.checkAux cs (i + 1)
    else if i ≠ 0 && c.isDigit then c :: Variable.checkAux cs (i + 1)
    else []

/-- Source `Variable.check`. -/
def Variable.check (s : List Char) : List Char × List Char :=
  let token := Variable.checkAux s 0
  (token, s.drop token.length)

/-- Scan of `String.check`: consume up to and including the first
occurrence of the delimiter, or everything if it never occurs. -/
def stringScan (q : Char) : List Char → List Char
  | [] => []
  | c :: cs => if c = q then [c] else c :: stringScan q cs

/-- Source `String.check`.  Indexing `string[0]` on an empty string is an
`IndexError`; an unclosed quote is the module's own `QueryException`. -/
def String.check (s : List Char) : Except PyErr (List Char × List Char) :=
  match s with
  | [] => .error (.indexError "string index out of range")
  | q :: rest =>
    if q ≠ '"' && q ≠ '\'' then .ok ([], s)
    else
      let token := q :: stringScan q rest
      if token.getLast? = some q ∧ 2 ≤ token.length then .ok (token, s.drop token.length)
      else .error (.queryException "Failed to parse string")

/-- First loop of `Function.check`: walk an identifier and return the
count of consumed characters including the `(`, or `none` when no `(`
terminates the identifier. -/
def Function.findParen : List Char → Nat → Option Nat
  | [], _ => Option.none
  | c :: cs, i =>
    if c.isAlpha || c = '_' then Function.findParen cs (i + 1)
    else if i ≠ 0 && c.isDigit then Function.findParen cs (i + 1)
    else if c = '(' then Option.some (i + 1)
    else Option.none

/-- Second loop of `Function.check`: restarts from the START of the string
(as the source does) while continuing to increment the counter `i`; toggles
each quote flag on its quote character, skips anything inside quotes, and
stops after the first unquoted `)`. -/
def Function.scanClose : List Char → Nat → Bool → Bool → Nat
  | [], i, _, _ => i
  | c :: cs, i, sq, dq =>
    if c = '\'' then Function.scanClose cs (i + 1) (!sq) dq
    else if c = '"' then Function.scanClose cs (i + 1) sq (!dq)
    else if dq || sq then Function.scanClose cs (i + 1) sq dq
    else if (i + 1) ≠ 0 && c.isDigit then Function.scanClose cs (i + 1) sq dq
    else if c = ')' then i + 1
    else Function.scanClose cs (i + 1) sq dq

/-- Source `Function.check` ( `([], s)` stands for the source's
`(None, string)` no-match result; a matched token is never empty). -/
def Function.check (s : List Char) : List Char × List Char :=
  match Function.findParen s 0 with
  | Option.none => ([], s)
  | Option.some i =>
    let i := Function.scanClose s i false false
    (s.take i, s.drop (i + 1))

/-- Bracket scan shared by `Dict.check` and `List.check`: nesting counter
incremented on the opener, decremented on the closer, ignored inside
quotes; stops when the counter reaches zero. -/
def bracketScan (op cl : Char) : List Char → Nat → Nat → Bool → Bool → Nat
  | [], i, _, _, _ => i
  | c :: cs, i, k, sq, dq =>
    if c = '\'' then bracketScan op cl cs (i + 1) k (!sq) dq
    else if c = '"' then bracketScan op cl cs (i + 1) k sq (!dq)
    else if dq || sq then bracketScan op cl cs (i + 1) k sq dq
    else if c = cl then
      (if k - 1 = 0 then i + 1 else bracketScan op cl cs (i + 1) (k - 1) sq dq)
    else if c = op then bracketScan op cl cs (i + 1) (k + 1) sq dq
    else bracketScan op cl cs (i + 1) k sq dq

/-- Source `Dict.check`. -/
def Dict.check (s : List Char) : Except PyErr (List Char × List Char) :=
  match s with
  | [] => .error (.indexError "string index out of range")
  | c :: _ =>
    if c ≠ '\x7b' then .ok ([], s)
    else
      let i := bracketScan '\x7b' '\x7d' (s.drop 1) 1 1 false false
      .ok (s.take i, s.drop (i + 1))

/-- Source `List.check`. -/
def List.check (s : List Char) : Except PyErr (List Char × List Char) :=
  match s with
  | [] => .error (.indexError "string index out of range")
  | c :: _ =>
    if c ≠ '[' then .ok ([], s)
    else
      let i := bracketScan '[' ']' (s.drop 1) 1 1 false false
      .ok (s.take i, s.drop (i + 1))

end Q2

namespace Q2

/-- Source `Integer.parse`: `int()` applied to the digit lexeme. -/
def Integer.parse (s : List Char) : Token := .integer (pyInt s)

/-- The `string[1:-1]` payload extraction of `String.parse`. -/
def String.parseValue (s : List Char) : String := String.mk (pySlice s 1 (-1))

/-- Source `String.parse`: strip the delimiters. -/
def String.parse (s : List Char) : Token := .string (String.parseValue s)

/-- Source `Variable.parse`: capture the name's current namespace value
(or `None` when unbound) at parse time. -/
def Variable.parse (s : List Char) (ns : Namespace) : Token :=
  match assocGet ns (String.mk s) with
  | Option.none => .variable (String.mk s) Value.none
  | Option.some v => .variable (String.mk s) v

/-- Recursion fuel exhausted: Python's `RecursionError`.  The wrappers
below always supply more fuel than any input can consume, so this value
is unreachable from the module's entry points. -/
def recursionErr : PyErr := .otherError "RecursionError" "maximum recursion depth exceeded"

/-- Source `_parse_token`: try the classifiers in the fixed priority order
string, integer, function, dict, list, variable on the stripped input; a
falsy (empty) token means "no match, try the next kind". -/
def _parse_token (s : List Char) (ns : Namespace) :
    Except PyErr ((Option TokenType × List Char) × List Char) :=
  let _ := ns
  if s.isEmpty then .ok ((Option.none, []), s)
  else
    let s := pyStrip s
    match String.check s with
    | .error e => .error e
    | .ok (tok, s) =>
      if tok ≠ [] then .ok ((Option.some TokenType.string, tok), s)
      else
        match Integer.check s with
        | (tok, s) =>
          if tok ≠ [] then .ok ((Option.some TokenType.integer, tok), s)
          else
            match Function.check s with
            | (tok, s) =>
              if tok ≠ [] then .ok ((Option.some TokenType.function, tok), s)
              else
                match Dict.check s with
                | .error e => .error e
                | .ok (tok, s) =>
                  if tok ≠ [] then .ok ((Option.some TokenType.dict, tok), s)
                  else
                    match List.check s with
                    | .error e => .error e
                    | .ok (tok, s) =>
                      if tok ≠ [] then .ok ((Option.some TokenType.list, tok), s)
                      else
                        match Variable.check s with
                        | (tok, s) =>
                          if tok ≠ [] then .ok ((Option.some TokenType.variable, tok), s)
                          else .error (.queryException ("Syntax error: " ++ String.mk s))

/-- First loop of `Function.parse`: index of the opening `(` (or the
length when there is none). -/
def Function.findArgStart : List Char → Nat
  | [] => 0
  | c :: cs => if c = '(' then 0 else Function.findArgStart cs + 1

mutual

/-- Dispatch `t.parse(string, namespace)` on a classifier class, as the
parser loops do.  The fuel bounds recursion depth and is never exhausted
when supplied by the wrappers. -/
def parseTokenF (fuel : Nat) (t : TokenType) (s : List Char) (ns : Namespace) :
    Except PyErr Token :=
  match fuel with
  | 0 => .error recursionErr
  | fuel + 1 =>
    match t with
    | .string => .ok (String.parse s)
    | .integer => .ok (Integer.parse s)
    | .variable => .ok (Variable.parse s ns)
    | .function => Function.parseF fuel s ns
    | .dict => Dict.parseF fuel s ns
    | .list => List.parseF fuel s ns

/-- Source `Function.parse`: name before the `(`, then the argument loop
over `string[arg_start+1 : len-1]`. -/
def Function.parseF (fuel : Nat) (s : List Char) (ns : Namespace) : Except PyErr Token :=
  match fuel with
  | 0 => .error recursionErr
  | fuel + 1 =>
    let argStart := Function.findArgStart s
    let name := String.mk (pySliceTo s (argStart : Int))
    let argsStr := pySlice s ((argStart : Int) + 1) ((s.length : Int) - 1)
    do
      let args ← Function.argsLoopF fuel argsStr ns []
      return .function name args

/-- Argument loop of `Function.parse`: classify one argument, skip to the
next comma in the remainder, parse the argument, repeat while text
remains. -/
def Function.argsLoopF (fuel : Nat) (argsStr : List Char) (ns : Namespace)
    (args : List Token) : Except PyErr (List Token) :=
  match fuel with
  | 0 => .error recursionErr
  | fuel + 1 =>
    if argsStr.isEmpty then .ok args
    else do
      let ((argT, arg), rest) ← _parse_token argsStr ns
      let comma := pyFind ',' rest
      let rest := if comma ≠ -1 then pySliceFrom rest (comma + 1) else rest
      match argT with
      | Option.none =>
        .error (.otherError "AttributeError" "NoneType object has no attribute parse")
      | Option.some t => do
        let a ← parseTokenF fuel t arg ns
        Function.argsLoopF fuel rest ns (args ++ [a])

/-- Source `Dict.parse`: loop over `string[1:-1]`. -/
def Dict.parseF (fuel : Nat) (s : List Char) (ns : Namespace) : Except PyErr Token :=
  match fuel with
  | 0 => .error recursionErr
  | fuel + 1 => do
    let d ← Dict.entriesLoopF fuel (pySlice s 1 (-1)) ns []
    return .dict d

/-- Entry loop of `Dict.parse`: strip, drop a separating comma (indexing
an empty string here is an `IndexError`), classify the key (must be a
string lexeme), require `:`, classify and parse the value, store with
`d[key] = val` semantics. -/
def Dict.entriesLoopF (fuel : Nat) (entriesStr : List Char) (ns : Namespace)
    (d : List (String × Token)) : Except PyErr (List (String × Token)) :=
  match fuel with
  | 0 => .error recursionErr
  | fuel + 1 =>
    if entriesStr.length = 0 then .ok d
    else do
      let es := pyStrip entriesStr
      let es ←
        if d.length > 0 then
          match es with
          | [] => Except.error (PyErr.indexError "string index out of range")
          | c :: rest => Except.ok (if c = ',' then rest else es)
        else Except.ok es
      let ((keyT, keyStr), es) ← _parse_token es ns
      if keyT ≠ Option.some TokenType.string then
        throw (.queryException "Key in dict is not a str")
      let key := String.parseValue keyStr
      let es := pyStrip es
      match es with
      | [] => Except.error (PyErr.indexError "string index out of range")
      | c :: rest =>
        if c ≠ ':' then throw (.queryException "Key in dict is not followed by a :")
        else do
          let ((valT, valStr), es) ← _parse_token rest ns
          match valT with
          | Option.none => throw (.queryException "Dict expected a value, got nothing")
          | Option.some vt => do
            let v ← parseTokenF fuel vt valStr ns
            Dict.entriesLoopF fuel es ns (assocSet d key v)

/-- Source `List.parse`: loop over `string[1:-1]`. -/
def List.parseF (fuel : Nat) (s : List Char) (ns : Namespace) : Except PyErr Token :=
  match fuel with
  | 0 => .error recursionErr
  | fuel + 1 => do
    let l ← List.elemsLoopF fuel (pySlice s 1 (-1)) ns []
    return .list l

/-- Element loop of `List.parse`. -/
def List.elemsLoopF (fuel : Nat) (entriesStr : List Char) (ns : Namespace)
    (l : List Token) : Except PyErr (List Token) :=
  match fuel with
  | 0 => .error recursionErr
  | fuel + 1 =>
    if entriesStr.length = 0 then .ok l
    else do
      let es := pyStrip entriesStr
      let es ←
        if l.length > 0 then
          match es with
          | [] => Except.error (PyErr.indexError "string index out of range")
          | c :: rest => Except.ok (if c = ',' then rest else es)
        else Except.ok es
      let ((valT, valStr), es) ← _parse_token es ns
      match valT with
      | Option.none => throw (.queryException "List expected a value, got nothing")
      | Option.some vt => do
        let v ← parseTokenF fuel vt valStr ns
        List.elemsLoopF fuel es ns (l ++ [v])

end

/-- Fuel budget for one top-level parse: the execution of the source's
parser makes well under `4·length + 8` nested-or-looping calls on any
input, since every parsed node and every loop iteration consumes at least
one character of its slice. -/
def parseFuel (s : List Char) : Nat := 4 * s.length + 8

/-- The `t.parse(string, namespace)` entry used outside the loops. -/
def TokenType.parse (t : TokenType) (s : List Char) (ns : Namespace) :
    Except PyErr Token :=
  parseTokenF (parseFuel s) t s ns

/-- Calling `.parse` on the class returned by `_parse_token`; on `None`
Python would raise an `AttributeError`. -/
def parseWith (t : Option TokenType) (s : List Char) (ns : Namespace) :
    Except PyErr Token :=
  match t with
  | Option.none => .error (.otherError "AttributeError" "NoneType object has no attribute parse")
  | Option.some t => TokenType.parse t s ns

/-- Source statement-level `parse`: split at the first `=` (position -1
when absent, so the target is the line minus its last character), check
the target is exactly one variable and the value exactly one expression,
then build both tokens. -/
def parse (line : List Char) (ns : Namespace) : Except PyErr (Token × Token) :=
  let separatorI := pyFind '=' line
  let varStr := pySliceTo line separatorI
  let valStr := pySliceFrom line (separatorI + 1)
  if valStr.isEmpty then .error (.queryException "Nothing to assign")
  else
    match _parse_token varStr ns with
    | .error e => .error e
    | .ok ((varT, varS), varStr) =>
      let varStr := pyStrip varStr
      if ¬ varStr.isEmpty then .error (.queryException "Invalid syntax for assignment variable")
      else if varT ≠ Option.some TokenType.variable then
        .error (.queryException "Cannot assign to a non-variable")
      else
        match _parse_token valStr ns with
        | .error e => .error e
        | .ok ((valT, valS), valRest) =>
          if ¬ valRest.isEmpty then .error (.queryException "Invalid syntax for value to assign")
          else
            match parseWith varT varS ns with
            | .error e => .error e
            | .ok var =>
              match parseWith valT valS ns with
              | .error e => .error e
              | .ok val => .ok (var, val)

mutual

/-- Source `interpret` methods of the token classes, with the namespace
mutation made explicit.  `Integer`/`String` return their literal;
`Variable` re-writes its own entry to the value captured at parse time
and returns that captured value (it never reads the namespace);
`Function` first requires the name to be registered, evaluates its
arguments left-to-right threading the namespace, then invokes the
callable, translating a `TypeError` into the "invalid amount of
arguments" `QueryException` and letting any other failure propagate. -/
def Token.interpret (reg : Registry) (ds : Datastore) :
    Token → Namespace → Except PyErr (Value × Namespace)
  | .integer n, ns => .ok (.int n, ns)
  | .string s, ns => .ok (.str s, ns)
  | .variable name v, ns => .ok (v, assocSet ns name v)
  | .function name args, ns =>
    match reg name with
    | Option.none =>
      .error (.queryException
        ("Tried to call function '" ++ name ++ "' which doesn't exist"))
    | Option.some f =>
      match interpretArgs reg ds args ns with
      | .error e => .error e
      | .ok (vals, ns) =>
        match f ds ns vals with
        | .error (.typeError _) =>
          .error (.queryException
            ("Tried to call function " ++ name ++ " with invalid amount of arguments"))
        | .error e => .error e
        | .ok vns => .ok vns
  | .dict entries, ns =>
    match interpretEntries reg ds entries ns [] with
    | .error e => .error e
    | .ok (d, ns) => .ok (.dict d, ns)
  | .list elems, ns =>
    match interpretElems reg ds elems ns [] with
    | .error e => .error e
    | .ok (l, ns) => .ok (.list l, ns)

/-- Left-to-right evaluation of a function call's arguments, threading
the namespace (the `call_args` accumulation loop of `Function.interpret`). -/
def interpretArgs (reg : Registry) (ds : Datastore) :
    List Token → Namespace → Except PyErr (List Value × Namespace)
  | [], ns => .ok ([], ns)
  | a :: rest, ns =>
    match Token.interpret reg ds a ns with
    | .error e => .error e
    | .ok (v, ns) =>
      match interpretArgs reg ds rest ns with
      | .error e => .error e
      | .ok (vs, ns) => .ok (v :: vs, ns)

/-- The `expanded_dict` loop of `Dict.interpret`: evaluate each entry's
value in order, assigning into the result dict. -/
def interpretEntries (reg : Registry) (ds : Datastore) :
    List (String × Token) → Namespace → List (String × Value) →
    Except PyErr (List (String × Value) × Namespace)
  | [], ns, acc => .ok (acc, ns)
  | (k, t) :: rest, ns, acc =>
    match Token.interpret reg ds t ns with
    | .error e => .error e
    | .ok (v, ns) => interpretEntries reg ds rest ns (assocSet acc k v)

/-- The `expanded_list` loop of `List.interpret`: evaluate each element
in order, appending. -/
def interpretElems (reg : Registry) (ds : Datastore) :
    List Token → Namespace → List Value → Except PyErr (List Value × Namespace)
  | [], ns, acc => .ok (acc, ns)
  | t :: rest, ns, acc =>
    match Token.interpret reg ds t ns with
    | .error e => .error e
    | .ok (v, ns) => interpretElems reg ds rest ns (acc ++ [v])

end

/-- Source `create_namespace`. -/
def create_namespace : Namespace := [("TRUE", .int 1), ("FALSE", .int 0)]

/-- Source statement-level `interpret`: evaluate the right-hand token and
bind the result under the left-hand variable's name. -/
def interpret (reg : Registry) (var val : Token) (ns : Namespace) (ds : Datastore) :
    Except PyErr Namespace :=
  match Token.interpret reg ds val ns with
  | .error e => .error e
  | .ok (v, ns) =>
    match var with
    | .variable name _ => .ok (assocSet ns name v)
    | _ => .error (.otherError "AttributeError" "object has no attribute name")

/-- Source `get_return`. -/
def get_return (ns : Namespace) : Except PyErr Value :=
  match assocGet ns "RETURN" with
  | Option.none =>
    .error (.queryException "Query doesn't assign the RETURN variable, nothing to respond")
  | Option.some v => .ok v

/-- The statement loop of `query`: strip each statement, skip empty ones,
parse and interpret the rest in order. -/
def execScript (reg : Registry) (ds : Datastore) :
    List (List Char) → Namespace → Except PyErr Namespace
  | [], ns => .ok ns
  | stmt :: rest, ns =>
    let stmt := pyStrip stmt
    if stmt.isEmpty then execScript reg ds rest ns
    else
      match parse stmt ns with
      | .error e => .error e
      | .ok (var, val) =>
        match interpret reg var val ns ds with
        | .error e => .error e
        | .ok ns => execScript reg ds rest ns

/-- Source `query`, the top-level entry point: seed the namespace, split
the script on `;`, run every non-empty statement in order, read `RETURN`. -/
def query (reg : Registry) (name : String) (q : String)
    (starttime endtime : PyDatetime) (ds : Datastore) : Except PyErr Value :=
  let ns := create_namespace
  let ns := assocSet ns "NAME" (.str name)
  let ns := assocSet ns "STARTTIME" (.str starttime.isoformat)
  let ns := assocSet ns "ENDTIME" (.str endtime.isoformat)
  match execScript reg ds (pySplit ';' q.data) ns with
  | .error e => .error e
  | .ok ns => get_return ns

/-- A fixed timestamp for concrete runs. -/
def d0 : PyDatetime := ⟨"2026-01-01T00:00:00"⟩

/-- A fixed datastore handle for concrete runs. -/
def ds0 : Datastore := ⟨0⟩

/-- A two-function registry exercising namespace mutation by callables:
`setx` writes `X := 42` into the namespace and returns `0`; `pair`
returns its evaluated arguments as a list, mutating nothing. -/
def cRegistry : Registry := fun name =>
  if name = "setx" then
    Option.some (fun _ ns _ => .ok (.int 0, assocSet ns "X" (.int 42)))
  else if name = "pair" then
    Option.some (fun _ ns vals => .ok (.list vals, ns))
  else Option.none

/-- A registry whose `f` reports an arity mismatch (`TypeError`) unless
called with exactly one argument, and whose `g` always raises a
non-`TypeError` host exception. -/
def c6Registry : Registry := fun name =>
  if name = "f" then
    Option.some (fun _ ns vals =>
      if vals.length = 1 then .ok (.int 7, ns) else .error (.typeError "arity"))
  else if name = "g" then
    Option.some (fun _ _ _ => .error (.otherError "ValueError" "boom"))
  else Option.none

/-- The round-trip script of the spec: `X = "s";RETURN=X;`. -/
def roundTripScript (s : List Char) : List Char :=
  "X = \"".data ++ s ++ "\";RETURN=X;".data

example : Integer.check "123abc".data = ("123".data, "abc".data) := rfl
example : Variable.check "foo_1(x)".data = ("foo_1".data, "(x)".data) := rfl
example : String.check "\"ab\"cd".data = .ok ("\"ab\"".data, "cd".data) := rfl
example : String.check "\"ab".data = .error (.queryException "Failed to parse string") := rfl
example : Function.check "f(1)".data = ("f(1)".data, []) := rfl
example : Function.check "f(1),g".data = ("f(1),g".data, []) := rfl
example : Dict.check "\x7b\"a\"\x7d".data = .ok ("\x7b\"a\"\x7d".data, []) := rfl
example : List.check "[1,2] x".data = .ok ("[1,2]".data, "x".data) := rfl

example : parse "X = 5".data [] = .ok (.variable "X" .none, .integer 5) := rfl

example : parse "RETURN = [1, 2, 3]".data [] =
    .ok (.variable "RETURN" .none, .list [.integer 1, .integer 2, .integer 3]) := rfl

example : parse "RETURN = \x7b\"x\": [1, \x7b\"y\": 2\x7d]\x7d".data [] =
    .ok (.variable "RETURN" .none,
      .dict [("x", .list [.integer 1, .dict [("y", .integer 2)]])]) := rfl

example : parse "RETURN = f(1, \"a\")".data [] =
    .ok (.variable "RETURN" .none, .function "f" [.integer 1, .string "a"]) := rfl

example : parse "foo".data [] = .ok (.variable "fo" .none, .variable "foo" .none) := rfl

example : query emptyRegistry "n" "X = 5; RETURN = X;" d0 d0 ds0 = .ok (.int 5) := rfl
example : query emptyRegistry "n" "X = 1;" d0 d0 ds0 =
    .error (.queryException "Query doesn't assign the RETURN variable, nothing to respond") := rfl
example : query emptyRegistry "n" "RETURN = [1, 2, 3];" d0 d0 ds0 =
    .ok (.list [.int 1, .int 2, .int 3]) := rfl
example : query emptyRegistry "n" "X = 1; X = 2; RETURN = X;" d0 d0 ds0 = .ok (.int 2) := rfl
example : query emptyRegistry "n" "RETURN = nosuchfn(1);" d0 d0 ds0 =
    .error (.queryException "Tried to call function 'nosuchfn' which doesn't exist") := rfl

/-- Splitting at the first separator: a separator-free prefix becomes the
first piece. -/
theorem pySplit_append_sep (sep : Char) (a r : List Char) (h : sep ∉ a) :
    pySplit sep (a ++ sep :: r) = a :: pySplit sep r := by
  induction a with
  | nil => simp [pySplit]
  | cons c a ih =>
    have hc : ¬ c = sep := fun hcc => h (hcc ▸ List.mem_cons_self c a)
    have h' : sep ∉ a := fun hm => h (List.mem_cons_of_mem _ hm)
    simp only [List.cons_append, pySplit, List.append_eq, if_neg hc, ih h']

/-- Stripping skips a leading space. -/
theorem pyStrip_cons_space (c : Char) (l : List Char) (h : isPySpace c = true) :
    pyStrip (c :: l) = pyStrip l := by
  simp [pyStrip, List.dropWhile_cons, h]

/-- Stripping a string with non-space first and last characters is the
identity. -/
theorem pyStrip_sandwich (c b : Char) (m : List Char)
    (hc : isPySpace c = false) (hb : isPySpace b = false) :
    pyStrip (c :: (m ++ [b])) = c :: (m ++ [b]) := by
  simp [pyStrip, List.dropWhile_cons, hc, hb]

/-- The quote scan consumes a delimiter-free body up to and including the
closing delimiter. -/
theorem stringScan_append_self (q : Char) (s : List Char) (h : q ∉ s) :
    stringScan q (s ++ [q]) = s ++ [q] := by
  induction s with
  | nil => simp [stringScan]
  | cons c s ih =>
    have hc : ¬ c = q := fun hcc => h (hcc ▸ List.mem_cons_self c s)
    have h' : q ∉ s := fun hm => h (List.mem_cons_of_mem _ hm)
    simp only [List.cons_append, stringScan, List.append_eq, if_neg hc, ih h']

/-- `String.check` accepts a double-quoted literal whose body is free of
double quotes, consuming it whole. -/
theorem String.check_wrapped (s : List Char) (hq : '"' ∉ s) :
    String.check ('"' :: (s ++ ['"'])) = .ok ('"' :: (s ++ ['"']), []) := by
  have hscan : stringScan '"' (s ++ ['"']) = s ++ ['"'] := stringScan_append_self _ _ hq
  have hlast : ('"' :: (s ++ ['"'])).getLast? = some '"' := by
    rw [show '"' :: (s ++ ['"']) = ('"' :: s) ++ ['"'] by simp]
    exact List.getLast?_concat _
  simp only [String.check, hscan]
  rw [if_neg (by decide), if_pos ⟨hlast, by simp⟩, List.drop_length]

/-- Dropping the delimiters of a double-quoted literal returns its body. -/
theorem String.parseValue_wrapped (s : List Char) :
    String.parseValue ('"' :: (s ++ ['"'])) = String.mk s := by
  have hlen : ('"' :: (s ++ ['"'])).length = s.length + 2 := by simp
  have h1 : pyIndex ('"' :: (s ++ ['"'])).length (-1) = s.length + 1 := by
    rw [hlen]; simp [pyIndex]; omega
  have h2 : pyIndex ('"' :: (s ++ ['"'])).length 1 = 1 := by simp [pyIndex]
  simp only [String.parseValue, pySlice, h1, h2, List.take_succ_cons, List.take_left,
    List.drop_succ_cons, List.drop_zero]

/-- The closing-parenthesis scan of `Function.check` never moves its
counter backwards. -/
theorem scanClose_le (l : List Char) : ∀ (i : Nat) (sq dq : Bool),
    i ≤ Function.scanClose l i sq dq := by
  induction l with
  | nil => intro i sq dq; exact Nat.le_refl i
  | cons c cs ih =>
    intro i sq dq
    simp only [Function.scanClose]
    repeat' split
    all_goals try exact Nat.le_trans (Nat.le_succ i) (ih (i + 1) _ _)
    all_goals exact Nat.le_succ i

/-- Claim C1 (code_bug evaluation): a dict literal whose key is not
followed by a `:` before the interior ends makes the entry point fail
with an `IndexError`, not a `QueryException` — `Dict.parse` indexes
`entries_str[0]` on an empty string. -/
theorem C1_syntax_error_indexerror :
    query emptyRegistry "n" "RETURN = \x7b\"a\"\x7d;" d0 d0 ds0 =
      .error (.indexError "string index out of range") := rfl

/-- Claim C2 (code_bug evaluation): on `f(1),g` the function-call
classifier returns the whole slice as lexeme and an empty remainder —
its second loop rescans from the start of the string while keeping the
counter, overshooting the matching `)` by the identifier length plus one
— instead of the claimed lexeme `f(1)` with remainder `,g`; in
consequence the grammatically well-formed script `RETURN = [f(), 2];`
fails with a syntax error. -/
theorem C2_function_lexeme_overshoot :
    Function.check "f(1),g".data = ("f(1),g".data, ([] : List Char)) ∧
    query emptyRegistry "n" "RETURN = [f(), 2];" d0 d0 ds0 =
      .error (.queryException "Syntax error: ),") :=
  ⟨rfl, rfl⟩

/-- Claim C3 (counterexample): evaluating the earlier argument
`setx()` leaves the namespace with `X = 42`, yet the later `VariableRef`
argument `X` (parsed while `X` was unbound) evaluates to `None`, not to
the `42` the earlier argument wrote — and it even overwrites `X` with
its stale captured value. -/
theorem C3_counterexample :
    interpretArgs cRegistry ds0 [.function "setx" []] [] =
      .ok ([.int 0], [("X", .int 42)]) ∧
    interpretArgs cRegistry ds0 [.function "setx" [], .variable "X" Value.none] [] =
      .ok ([.int 0, Value.none], [("X", Value.none)]) ∧
    Value.none ≠ Value.int 42 :=
  ⟨rfl, rfl, fun h => nomatch h⟩

/-- Claim C3 (amended): a `FunctionCall` node's arguments are evaluated
left-to-right against the threaded namespace — a later argument's
evaluation receives exactly the namespace produced by the earlier
arguments — but a later `VariableRef` argument yields the value captured
at parse time and re-writes its name with that captured value; it does
not read what earlier arguments wrote. -/
theorem C3_later_variable_argument :
    ∀ (reg : Registry) (ds : Datastore) (args : List Token) (x : String) (v : Value)
      (ns ns₁ : Namespace) (vals : List Value),
      interpretArgs reg ds args ns = .ok (vals, ns₁) →
      interpretArgs reg ds (args ++ [Token.variable x v]) ns =
        .ok (vals ++ [v], assocSet ns₁ x v) := by
  intro reg ds args
  induction args with
  | nil =>
    intro x v ns ns₁ vals h
    simp only [interpretArgs, Except.ok.injEq, Prod.mk.injEq] at h
    obtain ⟨h1, h2⟩ := h
    subst h1; subst h2
    rfl
  | cons a rest ih =>
    intro x v ns ns₁ vals h
    rw [List.cons_append]
    simp only [interpretArgs] at h ⊢
    cases hI : Token.interpret reg ds a ns with
    | error e => rw [hI] at h; exact absurd h (by simp)
    | ok p =>
      obtain ⟨v', ns'⟩ := p
      simp only [hI] at h ⊢
      cases hR : interpretArgs reg ds rest ns' with
      | error e => rw [hR] at h; exact absurd h (by simp)
      | ok q =>
        obtain ⟨vs, ns₂⟩ := q
        simp only [hR, Except.ok.injEq, Prod.mk.injEq] at h
        obtain ⟨h1, h2⟩ := h
        subst h1; subst h2
        rw [ih x v ns' ns₂ vs hR]
        simp

/-- Witness for C3: with no earlier mutation, a trailing `VariableRef`
argument contributes its captured value and writes it to the namespace. -/
theorem C3_witness :
    interpretArgs emptyRegistry ds0 [Token.integer 1, Token.variable "X" (Value.int 5)] [] =
      .ok ([Value.int 1, Value.int 5], [("X", Value.int 5)]) :=
  C3_later_variable_argument emptyRegistry ds0 [Token.integer 1] "X" (Value.int 5)
    [] [] [Value.int 1] rfl

/-- One step of the statement loop: a statement that strips to itself,
is non-empty, parses and interprets successfully just advances the loop
with the updated namespace. -/
theorem execScript_cons_exec (reg : Registry) (ds : Datastore) (stmt : List Char)
    (rest : List (List Char)) (ns : Namespace) (var val : Token) (ns' : Namespace)
    (h1 : pyStrip stmt = stmt) (h2 : stmt.isEmpty = false)
    (h3 : parse stmt ns = .ok (var, val))
    (h4 : interpret reg var val ns ds = .ok ns') :
    execScript reg ds (stmt :: rest) ns = execScript reg ds rest ns' := by
  simp only [execScript, h1, h2, h3, h4]
  simp

/-- Claim C4 (counterexample): `"a;b"` contains no double quote, yet
`X = "a;b";RETURN=X;` does not return `a;b` — the runner splits the
script on every `;`, including those inside string literals, so the
first statement becomes `X = "a` and fails as an unterminated string. -/
theorem C4_counterexample :
    ('"' ∉ "a;b".data) ∧
    query emptyRegistry "n" "X = \"a;b\";RETURN=X;" d0 d0 ds0 =
      .error (.queryException "Failed to parse string") :=
  ⟨by decide, rfl⟩

/-- Claim C4 (amended): for every string `s` containing no double quote
and no `;`, running `X = "s";RETURN=X;` returns `s` unchanged, for any
registry, run name, timestamps and datastore. -/
theorem C4_roundtrip_amended :
    ∀ (reg : Registry) (name : String) (st et : PyDatetime) (ds : Datastore) (s : List Char),
      '"' ∉ s → ';' ∉ s →
      query reg name (String.mk (roundTripScript s)) st et ds = .ok (.str (String.mk s)) := by
  intro reg name st et ds s hq hs
  have hA : (';' : Char) ∉ ("X = \"".data ++ (s ++ ['"'])) := by
    intro h
    rcases List.mem_append.mp h with h | h
    · revert h; decide
    · rcases List.mem_append.mp h with h | h
      · exact hs h
      · revert h; decide
  have hsplit : pySplit ';' (roundTripScript s)
      = [("X = \"".data ++ (s ++ ['"'])), "RETURN=X".data, []] := by
    have hre : roundTripScript s
        = ("X = \"".data ++ (s ++ ['"'])) ++ ';' :: ("RETURN=X".data ++ ';' :: []) := by
      simp [roundTripScript]
    rw [hre, pySplit_append_sep ';' _ _ hA,
      pySplit_append_sep ';' "RETURN=X".data [] (by decide)]
    rfl
  have hstrip1 : pyStrip ("X = \"".data ++ (s ++ ['"'])) = "X = \"".data ++ (s ++ ['"']) := by
    have h1 : "X = \"".data ++ (s ++ ['"'])
        = 'X' :: ((" = \"".data ++ s) ++ ['"']) := by simp
    rw [h1]
    exact pyStrip_sandwich 'X' '"' _ (by decide) (by decide)
  have hptval : _parse_token (' ' :: ('"' :: (s ++ ['"'])))
      [("TRUE", Value.int 1), ("FALSE", Value.int 0), ("NAME", Value.str name),
       ("STARTTIME", Value.str st.isoformat), ("ENDTIME", Value.str et.isoformat)]
      = .ok ((Option.some TokenType.string, '"' :: (s ++ ['"'])), []) := by
    have h1 : pyStrip (' ' :: ('"' :: (s ++ ['"']))) = '"' :: (s ++ ['"']) := by
      rw [pyStrip_cons_space _ _ (by decide)]
      exact pyStrip_sandwich '"' '"' s (by decide) (by decide)
    simp [_parse_token, h1, String.check_wrapped s hq]
  have hparse1 : parse ("X = \"".data ++ (s ++ ['"']))
      [("TRUE", Value.int 1), ("FALSE", Value.int 0), ("NAME", Value.str name),
       ("STARTTIME", Value.str st.isoformat), ("ENDTIME", Value.str et.isoformat)]
      = .ok (.variable "X" Value.none, .string (String.mk s)) := by
    have ha : pySliceFrom ("X = \"".data ++ (s ++ ['"']))
        (pyFind '=' ("X = \"".data ++ (s ++ ['"'])) + 1) = ' ' :: ('"' :: (s ++ ['"'])) := rfl
    have hb : pySliceTo ("X = \"".data ++ (s ++ ['"']))
        (pyFind '=' ("X = \"".data ++ (s ++ ['"']))) = (['X', ' '] : List Char) := rfl
    have hc : _parse_token (['X', ' '] : List Char)
        [("TRUE", Value.int 1), ("FALSE", Value.int 0), ("NAME", Value.str name),
         ("STARTTIME", Value.str st.isoformat), ("ENDTIME", Value.str et.isoformat)]
        = .ok ((Option.some TokenType.variable, ['X']), []) := rfl
    have hd : parseWith (Option.some TokenType.variable) ['X']
        [("TRUE", Value.int 1), ("FALSE", Value.int 0), ("NAME", Value.str name),
         ("STARTTIME", Value.str st.isoformat), ("ENDTIME", Value.str et.isoformat)]
        = .ok (.variable "X" Value.none) := rfl
    have hpv : parseWith (Option.some TokenType.string) ('"' :: (s ++ ['"']))
        [("TRUE", Value.int 1), ("FALSE", Value.int 0), ("NAME", Value.str name),
         ("STARTTIME", Value.str st.isoformat), ("ENDTIME", Value.str et.isoformat)]
        = .ok (.string (String.mk s)) := by
      have h0 : parseWith (Option.some TokenType.string) ('"' :: (s ++ ['"']))
          [("TRUE", Value.int 1), ("FALSE", Value.int 0), ("NAME", Value.str name),
           ("STARTTIME", Value.str st.isoformat), ("ENDTIME", Value.str et.isoformat)]
          = .ok (.string (String.parseValue ('"' :: (s ++ ['"'])))) := rfl
      rw [h0, String.parseValue_wrapped]
    simp only [parse, ha, hb, hc, hd, hptval, hpv]
    simp [pyStrip]
  have hinterp1 : interpret reg (.variable "X" Value.none) (.string (String.mk s))
      [("TRUE", Value.int 1), ("FALSE", Value.int 0), ("NAME", Value.str name),
       ("STARTTIME", Value.str st.isoformat), ("ENDTIME", Value.str et.isoformat)] ds
      = .ok [("TRUE", Value.int 1), ("FALSE", Value.int 0), ("NAME", Value.str name),
             ("STARTTIME", Value.str st.isoformat), ("ENDTIME", Value.str et.isoformat),
             ("X", Value.str (String.mk s))] := rfl
  have hns : assocSet (assocSet (assocSet create_namespace "NAME" (Value.str name))
        "STARTTIME" (Value.str st.isoformat)) "ENDTIME" (Value.str et.isoformat)
      = [("TRUE", Value.int 1), ("FALSE", Value.int 0), ("NAME", Value.str name),
         ("STARTTIME", Value.str st.isoformat), ("ENDTIME", Value.str et.isoformat)] := rfl
  have hdata : (String.mk (roundTripScript s)).data = roundTripScript s := rfl
  have hie : ("X = \"".data ++ (s ++ ['"'])).isEmpty = false := rfl
  have e1 : execScript reg ds [("X = \"".data ++ (s ++ ['"'])), "RETURN=X".data, []]
      [("TRUE", Value.int 1), ("FALSE", Value.int 0), ("NAME", Value.str name),
       ("STARTTIME", Value.str st.isoformat), ("ENDTIME", Value.str et.isoformat)]
      = execScript reg ds ["RETURN=X".data, []]
      [("TRUE", Value.int 1), ("FALSE", Value.int 0), ("NAME", Value.str name),
       ("STARTTIME", Value.str st.isoformat), ("ENDTIME", Value.str et.isoformat),
       ("X", Value.str (String.mk s))] :=
    execScript_cons_exec reg ds _ _ _ _ _ _ hstrip1 hie hparse1 hinterp1
  have e2 : execScript reg ds ["RETURN=X".data, []]
      [("TRUE", Value.int 1), ("FALSE", Value.int 0), ("NAME", Value.str name),
       ("STARTTIME", Value.str st.isoformat), ("ENDTIME", Value.str et.isoformat),
       ("X", Value.str (String.mk s))]
      = .ok [("TRUE", Value.int 1), ("FALSE", Value.int 0), ("NAME", Value.str name),
             ("STARTTIME", Value.str st.isoformat), ("ENDTIME", Value.str et.isoformat),
             ("X", Value.str (String.mk s)), ("RETURN", Value.str (String.mk s))] := rfl
  simp only [query, hns, hdata, hsplit]
  rw [e1.trans e2]
  rfl

/-- Witness for C4: the quote-free, semicolon-free string `hello`
round-trips through `X = "hello";RETURN=X;`. -/
theorem C4_witness :
    query emptyRegistry "n" (String.mk (roundTripScript "hello".data)) d0 d0 ds0 =
      .ok (.str (String.mk "hello".data)) :=
  C4_roundtrip_amended emptyRegistry "n" d0 d0 ds0 "hello".data (by decide) (by decide)

/-- Claim C5: after the statements run, the runner reads `RETURN` from
the namespace — the entry point is exactly the statement loop followed by
`get_return`; an absent `RETURN` is the "nothing to respond" failure
(e.g. for `X = 1;`), a bound `RETURN` is returned as the result. -/
theorem C5_return_extraction :
    (∀ ns : Namespace, assocGet ns "RETURN" = Option.none →
      get_return ns = .error (.queryException
        "Query doesn't assign the RETURN variable, nothing to respond")) ∧
    (∀ (ns : Namespace) (v : Value), assocGet ns "RETURN" = Option.some v →
      get_return ns = .ok v) ∧
    (∀ (reg : Registry) (name qs : String) (st et : PyDatetime) (ds : Datastore),
      query reg name qs st et ds =
        (execScript reg ds (pySplit ';' qs.data)
          (assocSet (assocSet (assocSet create_namespace "NAME" (.str name))
            "STARTTIME" (.str st.isoformat)) "ENDTIME" (.str et.isoformat)) >>= get_return)) ∧
    query emptyRegistry "n" "X = 1;" d0 d0 ds0 =
      .error (.queryException "Query doesn't assign the RETURN variable, nothing to respond") := by
  refine ⟨?_, ?_, ?_, rfl⟩
  · intro ns h; simp [get_return, h]
  · intro ns v h; simp [get_return, h]
  · intro reg name qs st et ds
    cases hE : execScript reg ds (pySplit ';' qs.data)
        (assocSet (assocSet (assocSet create_namespace "NAME" (.str name))
          "STARTTIME" (.str st.isoformat)) "ENDTIME" (.str et.isoformat)) with
    | error e => simp [query, hE, Bind.bind, Except.bind]
    | ok ns => simp [query, hE, Bind.bind, Except.bind]

/-- Witness for C5: a namespace without `RETURN` fails with the
"nothing to respond" error; one with `RETURN` yields its value. -/
theorem C5_witness :
    get_return [] = .error (.queryException
      "Query doesn't assign the RETURN variable, nothing to respond") ∧
    get_return [("RETURN", Value.int 5)] = .ok (Value.int 5) :=
  ⟨C5_return_extraction.1 [] rfl,
   C5_return_extraction.2.1 [("RETURN", Value.int 5)] (Value.int 5) rfl⟩

/-- Claim C6: when the registered callable reports an arity mismatch
(a `TypeError` in the host), the interpreter fails with the "invalid
amount of arguments" `QueryException`; any failure of another exception
class propagates unchanged, and a successful result is passed through. -/
theorem C6_callable_failures :
    ∀ (reg : Registry) (ds : Datastore) (name : String) (args : List Token)
      (ns ns' : Namespace) (f : QFunc) (vals : List Value),
      reg name = Option.some f →
      interpretArgs reg ds args ns = .ok (vals, ns') →
      ((∀ m : String, f ds ns' vals = .error (.typeError m) →
          Token.interpret reg ds (.function name args) ns =
            .error (.queryException
              ("Tried to call function " ++ name ++ " with invalid amount of arguments"))) ∧
        (∀ e : PyErr, f ds ns' vals = .error e → (∀ m : String, e ≠ .typeError m) →
          Token.interpret reg ds (.function name args) ns = .error e) ∧
        (∀ p : Value × Namespace, f ds ns' vals = .ok p →
          Token.interpret reg ds (.function name args) ns = .ok p)) := by
  intro reg ds name args ns ns' f vals hreg hargs
  have hbase : Token.interpret reg ds (.function name args) ns =
      (match f ds ns' vals with
       | .error (.typeError _) =>
         .error (.queryException
           ("Tried to call function " ++ name ++ " with invalid amount of arguments"))
       | .error e => .error e
       | .ok vns => .ok vns) := by
    simp only [Token.interpret, hreg, hargs]
  refine ⟨?_, ?_, ?_⟩
  · intro m hf; rw [hbase, hf]
  · intro e hf hne
    rw [hbase, hf]
    cases e with
    | queryException m => rfl
    | indexError m => rfl
    | typeError m => exact absurd rfl (hne m)
    | otherError c m => rfl
  · intro p hf; rw [hbase, hf]

/-- Witness for C6: in `c6Registry`, calling `f` with zero arguments
(its arity check raises `TypeError`) yields the "invalid amount of
arguments" `QueryException`, while `g`'s `ValueError` propagates as is. -/
theorem C6_witness :
    Token.interpret c6Registry ds0 (.function "f" []) [] =
      .error (.queryException "Tried to call function f with invalid amount of arguments") ∧
    Token.interpret c6Registry ds0 (.function "g" []) [] =
      .error (.otherError "ValueError" "boom") :=
  ⟨(C6_callable_failures c6Registry ds0 "f" [] [] [] _ [] rfl rfl).1 "arity" rfl,
   (C6_callable_failures c6Registry ds0 "g" [] [] [] _ [] rfl rfl).2.1
     (.otherError "ValueError" "boom") rfl (fun _ h => nomatch h)⟩

/-- Claim C7: a dict literal evaluates its entries in order into a
string-keyed mapping with last-write-wins duplicate resolution:
`RETURN = {"a": 1, "a": 2};` returns the mapping binding `"a"` to `2`. -/
theorem C7_dict_last_write_wins :
    query emptyRegistry "n" "RETURN = \x7b\"a\": 1, \"a\": 2\x7d;" d0 d0 ds0 =
      .ok (.dict [("a", .int 2)]) := rfl

/-- Claim C8: an input starting with `(` is classified as a function
call with an empty name (the classifier's identifier loop accepts zero
identifier characters before the `(`); a call to an unregistered name
fails with the unknown-function error, so `RETURN = (1);` parses and
then fails with that error for the empty name. -/
theorem C8_empty_function_name :
    (∀ s : List Char, (Function.check ('(' :: s)).1 ≠ []) ∧
    (∀ (reg : Registry) (ds : Datastore) (name : String) (args : List Token) (ns : Namespace),
      reg name = Option.none →
      Token.interpret reg ds (.function name args) ns =
        .error (.queryException
          ("Tried to call function '" ++ name ++ "' which doesn't exist"))) ∧
    query emptyRegistry "n" "RETURN = (1);" d0 d0 ds0 =
      .error (.queryException "Tried to call function '' which doesn't exist") := by
  refine ⟨?_, ?_, rfl⟩
  · intro s
    have h1 : Function.findParen ('(' :: s) 0 = Option.some 1 := rfl
    have h2 := scanClose_le ('(' :: s) 1 false false
    simp only [Function.check, h1]
    cases hsc : Function.scanClose ('(' :: s) 1 false false with
    | zero => rw [hsc] at h2; omega
    | succ k => simp
  · intro reg ds name args ns h
    simp only [Token.interpret, h]

/-- Witness for C8: the classifier accepts `(1)` as a function-call
lexeme with empty name, and the unknown-function error fires for the
empty name under the empty registry. -/
theorem C8_witness :
    (Function.check ('(' :: "1)".data)).1 ≠ [] ∧
    Token.interpret emptyRegistry ds0 (.function "" [.integer 1]) [] =
      .error (.queryException "Tried to call function '' which doesn't exist") :=
  ⟨C8_empty_function_name.1 "1)".data,
   C8_empty_function_name.2.1 emptyRegistry ds0 "" [.integer 1] [] rfl⟩

/-- Claim C9: a non-empty statement with no `=` is not a syntax error:
`find` returns -1, so the target is the statement minus its last
character and the value is the whole statement; running `foo;` succeeds
and leaves both `fo` and `foo` bound to the undefined sentinel. -/
theorem C9_no_equals_statement :
    parse "foo".data create_namespace =
      .ok (.variable "fo" .none, .variable "foo" .none) ∧
    execScript emptyRegistry ds0 (pySplit ';' "foo;".data) create_namespace =
      .ok [("TRUE", .int 1), ("FALSE", .int 0), ("foo", Value.none), ("fo", Value.none)] ∧
    assocGet [("TRUE", Value.int 1), ("FALSE", Value.int 0),
      ("foo", Value.none), ("fo", Value.none)] "fo" = Option.some Value.none ∧
    assocGet [("TRUE", Value.int 1), ("FALSE", Value.int 0),
      ("foo", Value.none), ("fo", Value.none)] "foo" = Option.some Value.none :=
  ⟨rfl, rfl, rfl, rfl⟩

/-- Claim C10: the empty literals `[]` and `{}` evaluate to the empty
sequence and the empty mapping, but with only whitespace between the
brackets the run fails — `[ ]` with "List expected a value, got
nothing" and `{ }` with "Key in dict is not a str". -/
theorem C10_empty_literals :
    query emptyRegistry "n" "RETURN = [];" d0 d0 ds0 = .ok (.list []) ∧
    query emptyRegistry "n" "RETURN = \x7b\x7d;" d0 d0 ds0 = .ok (.dict []) ∧
    query emptyRegistry "n" "RETURN = [ ];" d0 d0 ds0 =
      .error (.queryException "List expected a value, got nothing") ∧
    query emptyRegistry "n" "RETURN = \x7b \x7d;" d0 d0 ds0 =
      .error (.queryException "Key in dict is not a str") :=
  ⟨rfl, rfl, rfl, rfl⟩

end Q2
